import Mathlib

/-!
Verification of the scoring and presentation logic of the
`Quantifying-sustainability-in-fashion` frontend, a shallow embedding of
`src/frontend/src/components/ScoreBreakdown.tsx`.

Numeric values are modelled as rationals: every arithmetic operation the
component performs (sums, divisions by 3, 4, 10, `Math.min`) is exact at
the magnitudes involved.
-/

namespace ScoreBreakdown

/-- `breakdown.material_impact`: the four material metrics. -/
structure MaterialImpact where
  co2 : ℚ
  water : ℚ
  energy : ℚ
  chemical : ℚ

/-- `breakdown.care_impact`: the three care-phase metrics. -/
structure CareImpact where
  co2 : ℚ
  water : ℚ
  energy : ℚ

/-- `breakdown.origin_impact`: the three manufacturing-origin metrics. -/
structure OriginImpact where
  grid : ℚ
  transport : ℚ
  manufacturing : ℚ

/-- The `ScoreBreakdown` record passed to the component (`breakdown` prop). -/
structure Breakdown where
  material_impact : MaterialImpact
  care_impact : CareImpact
  origin_impact : OriginImpact

/-- `getBarColor` in `ImpactBar` (ScoreBreakdown.tsx lines 17-23): maps an
impact value to a Tailwind gray class, darker = higher impact. -/
def getBarColor (v : ℚ) : String :=
  if v ≤ 20 then "bg-gray-300"
  else if v ≤ 40 then "bg-gray-400"
  else if v ≤ 60 then "bg-gray-500"
  else if v ≤ 80 then "bg-gray-600"
  else "bg-gray-800"

/-- The five classes `getBarColor` can produce, light to dark. -/
def barColorClasses : List String :=
  ["bg-gray-300", "bg-gray-400", "bg-gray-500", "bg-gray-600", "bg-gray-800"]

/-- Darkness rank of a bar color class: position in the light-to-dark order
of the five classes (used to state monotonicity of `getBarColor`). -/
def darkness (c : String) : ℕ :=
  if c = "bg-gray-300" then 0
  else if c = "bg-gray-400" then 1
  else if c = "bg-gray-500" then 2
  else if c = "bg-gray-600" then 3
  else 4

/-- The rendered bar width in percent (ScoreBreakdown.tsx line 34):
`Math.min(value, 100)`. -/
def barWidth (value : ℚ) : ℚ := min value 100

/-- `toggleSection` (ScoreBreakdown.tsx lines 77-85): copies the open-sections
set, then deletes the section if present, inserts it otherwise. -/
def toggleSection (openSections : Finset String) (section' : String) :
    Finset String :=
  if section' ∈ openSections then openSections.erase section'
  else insert section' openSections

/-- `materialAvg` (lines 88-93): mean of the four material metrics. -/
def materialAvg (b : Breakdown) : ℚ :=
  (b.material_impact.co2 + b.material_impact.water +
   b.material_impact.energy + b.material_impact.chemical) / 4

/-- `careAvg` (lines 95-99): mean of the three care metrics. -/
def careAvg (b : Breakdown) : ℚ :=
  (b.care_impact.co2 + b.care_impact.water + b.care_impact.energy) / 3

/-- `originAvg` (lines 101-105): mean of the three origin metrics. -/
def originAvg (b : Breakdown) : ℚ :=
  (b.origin_impact.grid + b.origin_impact.transport +
   b.origin_impact.manufacturing) / 3

/-- `allMetricsSum` (lines 108-119): sum of all ten metrics. -/
def allMetricsSum (b : Breakdown) : ℚ :=
  b.material_impact.co2 + b.material_impact.water +
  b.material_impact.energy + b.material_impact.chemical +
  b.care_impact.co2 + b.care_impact.water + b.care_impact.energy +
  b.origin_impact.grid + b.origin_impact.transport +
  b.origin_impact.manufacturing

/-- `overallImpact` (line 120): the ten metrics averaged equally. -/
def overallImpact (b : Breakdown) : ℚ := allMetricsSum b / 10

/-- `finalScore` (line 121): `Math.min(100, environmentalScore +
certificationBonus)`. -/
def finalScore (environmentalScore certificationBonus : ℚ) : ℚ :=
  min 100 (environmentalScore + certificationBonus)

/-- The equal-per-category aggregation named by the spec's §3 note and §8:
the mean of the three category averages (this formula is the alternative the
spec contrasts with the per-metric `overallImpact` the code uses). -/
def perCategoryImpact (b : Breakdown) : ℚ :=
  (materialAvg b + careAvg b + originAvg b) / 3

/-- All numeric quantities the component derives from its props during one
render (lines 88-121). -/
structure Rendered where
  materialAvg : ℚ
  careAvg : ℚ
  originAvg : ℚ
  overallImpact : ℚ
  finalScore : ℚ

/-- One render of `ScoreBreakdown` as a pure function of its props. -/
def render (b : Breakdown) (environmentalScore certificationBonus : ℚ) :
    Rendered :=
  { materialAvg := materialAvg b
    careAvg := careAvg b
    originAvg := originAvg b
    overallImpact := overallImpact b
    finalScore := finalScore environmentalScore certificationBonus }

/-- A breakdown with every metric equal to `v`. -/
def constBreakdown (v : ℚ) : Breakdown :=
  { material_impact := { co2 := v, water := v, energy := v, chemical := v }
    care_impact := { co2 := v, water := v, energy := v }
    origin_impact := { grid := v, transport := v, manufacturing := v } }

/-- The input of spec §8's divergence example: material and care metrics
all 0, origin metrics all 100. -/
def divergenceInput : Breakdown :=
  { material_impact := { co2 := 0, water := 0, energy := 0, chemical := 0 }
    care_impact := { co2 := 0, water := 0, energy := 0 }
    origin_impact := { grid := 100, transport := 100, manufacturing := 100 } }

end ScoreBreakdown

namespace ScoreBreakdown

/-- Band lemma: values at most 20 get the lightest class. -/
lemma getBarColor_band0 {v : ℚ} (h : v ≤ 20) : getBarColor v = "bg-gray-300" := by
  unfold getBarColor
  rw [if_pos h]

/-- Band lemma: values in (20, 40] get the second class. -/
lemma getBarColor_band1 {v : ℚ} (h1 : 20 < v) (h2 : v ≤ 40) :
    getBarColor v = "bg-gray-400" := by
  unfold getBarColor
  rw [if_neg (by linarith), if_pos h2]

/-- Band lemma: values in (40, 60] get the third class. -/
lemma getBarColor_band2 {v : ℚ} (h1 : 40 < v) (h2 : v ≤ 60) :
    getBarColor v = "bg-gray-500" := by
  unfold getBarColor
  rw [if_neg (by linarith), if_neg (by linarith), if_pos h2]

/-- Band lemma: values in (60, 80] get the fourth class. -/
lemma getBarColor_band3 {v : ℚ} (h1 : 60 < v) (h2 : v ≤ 80) :
    getBarColor v = "bg-gray-600" := by
  unfold getBarColor
  rw [if_neg (by linarith), if_neg (by linarith), if_neg (by linarith),
    if_pos h2]

/-- Band lemma: values above 80 get the darkest class. -/
lemma getBarColor_band4 {v : ℚ} (h : 80 < v) : getBarColor v = "bg-gray-800" := by
  unfold getBarColor
  rw [if_neg (by linarith), if_neg (by linarith), if_neg (by linarith),
    if_neg (by linarith)]

end ScoreBreakdown

namespace ScoreBreakdown

/-- C1: for every environmental score and every certification bonus, the
final score computed by ScoreBreakdown equals
min(100, environmental_score + certification_bonus) and is always ≤ 100. -/
theorem finalScore_eq_min_and_clamped (env bonus : ℚ) :
    finalScore env bonus = min 100 (env + bonus) ∧ finalScore env bonus ≤ 100 :=
  ⟨rfl, min_le_left 100 (env + bonus)⟩

/-- C2: on material=[0,0,0,0], care=[0,0,0], origin=[100,100,100], the
equal-per-metric aggregation of the code gives overallImpact 30 and
environmental score 100 - 30 = 70, while the equal-per-category aggregation
(mean of materialAvg, careAvg, originAvg) gives 100/3; the two formulas
disagree on this input. -/
theorem aggregation_divergence :
    overallImpact divergenceInput = 30 ∧
    100 - overallImpact divergenceInput = 70 ∧
    perCategoryImpact divergenceInput = 100 / 3 ∧
    overallImpact divergenceInput ≠ perCategoryImpact divergenceInput := by
  refine ⟨?_, ?_, ?_, ?_⟩ <;>
    norm_num [overallImpact, allMetricsSum, perCategoryImpact, materialAvg,
      careAvg, originAvg, divergenceInput]

/-- C3: with all ten impact metrics 0, the environmental score
100 - overallImpact equals 100, and with certification bonus 0 that gives a
final score of 100. -/
theorem all_zero_metrics_score :
    100 - overallImpact (constBreakdown 0) = 100 ∧
    finalScore (100 - overallImpact (constBreakdown 0)) 0 = 100 := by
  constructor <;>
    norm_num [overallImpact, allMetricsSum, constBreakdown, finalScore]

/-- C4: with all ten impact metrics 100 and certification bonus 0, the
environmental score 100 - overallImpact equals 0 and the final score is 0. -/
theorem all_hundred_metrics_score :
    100 - overallImpact (constBreakdown 100) = 0 ∧
    finalScore (100 - overallImpact (constBreakdown 100)) 0 = 0 := by
  constructor <;>
    norm_num [overallImpact, allMetricsSum, constBreakdown, finalScore]

/-- The breakdown of spec §8's category-average example: material metrics
[10, 20, 30, 40], all other metrics 0. -/
def materialExample : Breakdown :=
  { material_impact := { co2 := 10, water := 20, energy := 30, chemical := 40 }
    care_impact := { co2 := 0, water := 0, energy := 0 }
    origin_impact := { grid := 0, transport := 0, manufacturing := 0 } }

/-- C5: the material category average is the exact arithmetic mean
(co2 + water + energy + chemical) / 4 of the four material metrics, and on
material = [10, 20, 30, 40] it equals exactly 25. -/
theorem materialAvg_is_mean (b : Breakdown) :
    materialAvg b =
      (b.material_impact.co2 + b.material_impact.water +
       b.material_impact.energy + b.material_impact.chemical) / 4 ∧
    materialAvg materialExample = 25 := by
  constructor
  · rfl
  · norm_num [materialAvg, materialExample]

end ScoreBreakdown

namespace ScoreBreakdown

/-- Totality helper: every value lands in one of the five classes. -/
lemma getBarColor_mem (v : ℚ) : getBarColor v ∈ barColorClasses := by
  unfold getBarColor barColorClasses
  split_ifs <;> simp

/-- Darkness rank of the class chosen for `v`, as an explicit case split on
the five bands. -/
lemma darkness_getBarColor (v : ℚ) :
    darkness (getBarColor v) =
      if v ≤ 20 then 0 else if v ≤ 40 then 1 else if v ≤ 60 then 2
      else if v ≤ 80 then 3 else 4 := by
  rcases le_or_lt v 20 with h1 | h1
  · rw [getBarColor_band0 h1, if_pos h1]; rfl
  rcases le_or_lt v 40 with h2 | h2
  · rw [getBarColor_band1 h1 h2, if_neg (not_le.mpr h1), if_pos h2]; rfl
  rcases le_or_lt v 60 with h3 | h3
  · rw [getBarColor_band2 h2 h3, if_neg (not_le.mpr h1),
      if_neg (not_le.mpr h2), if_pos h3]
    rfl
  rcases le_or_lt v 80 with h4 | h4
  · rw [getBarColor_band3 h3 h4, if_neg (not_le.mpr h1),
      if_neg (not_le.mpr h2), if_neg (not_le.mpr h3), if_pos h4]
    rfl
  · rw [getBarColor_band4 h4, if_neg (not_le.mpr h1), if_neg (not_le.mpr h2),
      if_neg (not_le.mpr h3), if_neg (not_le.mpr h4)]
    rfl

/-- C6: the bar color function has exactly the five bands ≤20, ≤40, ≤60,
≤80, >80: every value gets one of the five classes, 20.0 and 20.1 get
different classes, and at each threshold t in \x7b20, 40, 60, 80\x7d the
value t and any v with t < v ≤ t + 20 get different classes. -/
theorem barColor_five_bands :
    getBarColor 20 ≠ getBarColor (201 / 10) ∧
    (∀ v : ℚ, getBarColor v ∈ barColorClasses) ∧
    (∀ t : ℚ, t = 20 ∨ t = 40 ∨ t = 60 ∨ t = 80 →
      ∀ v : ℚ, t < v → v ≤ t + 20 → getBarColor t ≠ getBarColor v) := by
  refine ⟨?_, getBarColor_mem, ?_⟩
  · rw [getBarColor_band0 (by norm_num), getBarColor_band1 (by norm_num)
      (by norm_num)]
    decide
  · rintro t (rfl | rfl | rfl | rfl) v h1 h2
    · rw [getBarColor_band0 (by norm_num), getBarColor_band1 h1 (by linarith)]
      decide
    · rw [getBarColor_band1 (by norm_num) (by norm_num),
        getBarColor_band2 h1 (by linarith)]
      decide
    · rw [getBarColor_band2 (by norm_num) (by norm_num),
        getBarColor_band3 h1 (by linarith)]
      decide
    · rw [getBarColor_band3 (by norm_num) (by norm_num),
        getBarColor_band4 h1]
      decide

/-- Witness for C6: the boundary separation instantiated at threshold 40 and
value 50. -/
theorem barColor_five_bands_witness : getBarColor 40 ≠ getBarColor 50 :=
  barColor_five_bands.2.2 40 (Or.inr (Or.inl rfl)) 50 (by norm_num)
    (by norm_num)

/-- C7: ImpactBar never rejects an input: the rendered width is
min(value, 100) percent, hence never exceeds 100. -/
theorem barWidth_clamped (v : ℚ) :
    barWidth v = min v 100 ∧ barWidth v ≤ 100 :=
  ⟨rfl, min_le_right v 100⟩

/-- C8: the rendered final score depends only on the environmentalScore and
certificationBonus props: any two breakdown records give the same final
score at fixed environmentalScore and certificationBonus. -/
theorem finalScore_independent_of_breakdown (b1 b2 : Breakdown)
    (env bonus : ℚ) :
    (render b1 env bonus).finalScore = (render b2 env bonus).finalScore :=
  rfl

/-- C9: toggleSection is an involution on the open-sections set: toggling a
section twice restores the original set, one toggle flips the membership of
the toggled section, and every other section's membership is unchanged. -/
theorem toggleSection_involutive (S : Finset String) (s : String) :
    toggleSection (toggleSection S s) s = S ∧
    (s ∈ toggleSection S s ↔ s ∉ S) ∧
    (∀ t : String, t ≠ s → (t ∈ toggleSection S s ↔ t ∈ S)) := by
  by_cases h : s ∈ S
  · have h1 : toggleSection S s = S.erase s := by
      unfold toggleSection; rw [if_pos h]
    refine ⟨?_, ?_, ?_⟩
    · rw [h1]
      unfold toggleSection
      rw [if_neg (Finset.not_mem_erase s S), Finset.insert_erase h]
    · rw [h1]; simp [Finset.mem_erase, h]
    · intro t ht; rw [h1]; simp [Finset.mem_erase, ht]
  · have h1 : toggleSection S s = insert s S := by
      unfold toggleSection; rw [if_neg h]
    refine ⟨?_, ?_, ?_⟩
    · rw [h1]
      unfold toggleSection
      rw [if_pos (Finset.mem_insert_self s S), Finset.erase_insert h]
    · rw [h1]; simp [Finset.mem_insert_self, h]
    · intro t ht; rw [h1]; simp [Finset.mem_insert, ht]

/-- Witness for C9: double-toggling "care" on the initial open set
\x7b"material"\x7d restores it, and the toggle leaves "material"'s
membership unchanged. -/
theorem toggleSection_involutive_witness :
    toggleSection (toggleSection ({"material"} : Finset String) "care") "care"
      = {"material"} ∧
    ("material" ∈ toggleSection ({"material"} : Finset String) "care" ↔
      "material" ∈ ({"material"} : Finset String)) :=
  ⟨(toggleSection_involutive {"material"} "care").1,
   (toggleSection_involutive {"material"} "care").2.2 "material" (by decide)⟩

/-- C10: getBarColor is total and monotone: every input gets one of exactly
five classes (each of which is attained), and a larger impact value never
gets a strictly lighter class. -/
theorem getBarColor_total_monotone :
    (∀ v : ℚ, getBarColor v ∈ barColorClasses) ∧
    (∀ c ∈ barColorClasses, ∃ v : ℚ, getBarColor v = c) ∧
    (∀ v1 v2 : ℚ, v1 ≤ v2 →
      darkness (getBarColor v1) ≤ darkness (getBarColor v2)) := by
  refine ⟨getBarColor_mem, ?_, ?_⟩
  · intro c hc
    simp only [barColorClasses, List.mem_cons, List.not_mem_nil, or_false]
      at hc
    rcases hc with rfl | rfl | rfl | rfl | rfl
    · exact ⟨0, getBarColor_band0 (by norm_num)⟩
    · exact ⟨30, getBarColor_band1 (by norm_num) (by norm_num)⟩
    · exact ⟨50, getBarColor_band2 (by norm_num) (by norm_num)⟩
    · exact ⟨70, getBarColor_band3 (by norm_num) (by norm_num)⟩
    · exact ⟨90, getBarColor_band4 (by norm_num)⟩
  · intro v1 v2 h
    rw [darkness_getBarColor, darkness_getBarColor]
    split_ifs <;> first | omega | (exfalso; linarith)

/-- Witness for C10: surjectivity at the darkest class and monotonicity at
10 ≤ 90. -/
theorem getBarColor_total_monotone_witness :
    (∃ v : ℚ, getBarColor v = "bg-gray-800") ∧
    darkness (getBarColor 10) ≤ darkness (getBarColor 90) :=
  ⟨getBarColor_total_monotone.2.1 "bg-gray-800" (by simp [barColorClasses]),
   getBarColor_total_monotone.2.2 10 90 (by norm_num)⟩

end ScoreBreakdown
